import Mathlib

/-!
Shallow embedding of `Sources/LinuxHalSwiftIO/swift_platform.c` from
PADL/CSwiftIOLinux, together with theorems settling the specification
claims about its five/six wrapper functions.

Machine integers are modelled as `Int`/`Nat` with explicit reductions
modulo `2^32` / `2^64` at the points where the C code converts or where
two's-complement wraparound matters:
  - C `int` / `long` multiplication is followed by a signed wrap
    (`int32wrap` / `int64wrap`);
  - conversion to `unsigned int` (`useconds_t`, or the `unsigned int`
    return type) is `uint32ofInt`.
The OS facilities the shim calls (`usleep`, `getrandom`, `sysinfo`,
`sysconf`, the hardware counter) are modelled as oracles: the OS-supplied
values are parameters of the embedded functions, and an outgoing OS call
is recorded as an `OSCall` value.
-/

/-- Two's-complement wraparound of a mathematical integer into the range
of a 32-bit signed C `int`, `[-2^31, 2^31)`. Signed overflow in C is
undefined behaviour; this models the wraparound that the generated code
exhibits on the targets this shim supports. -/
def int32wrap (x : Int) : Int :=
  (x + 2 ^ 31) % 2 ^ 32 - 2 ^ 31

/-- Two's-complement wraparound of a mathematical integer into the range
of a 64-bit signed C `long` / `long long`, `[-2^63, 2^63)`. -/
def int64wrap (x : Int) : Int :=
  (x + 2 ^ 63) % 2 ^ 64 - 2 ^ 63

/-- The C conversion of a signed integer value to `unsigned int`
(32 bits on the Linux targets of this shim): reduction modulo `2^32`,
always well defined in C. -/
def uint32ofInt (x : Int) : Nat :=
  (x % 2 ^ 32).toNat

/-- An observable call made by the shim into the OS. `usleep` carries the
`useconds_t` (unsigned 32-bit) duration actually passed; `getrandom`
carries the destination buffer address, the requested length (the C `int`
argument) and the flags word. -/
inductive OSCall where
  | usleep (us : Nat) : OSCall
  | getrandom (buf : Nat) (len : Int) (flags : Nat) : OSCall
  deriving DecidableEq

/-- `void swifthal_ms_sleep(int ms) { usleep(ms * 1000); }`
The argument `ms * 1000` is computed in 32-bit signed `int` arithmetic
(`int32wrap`) and then converted to `usleep`'s `useconds_t` parameter
type, `unsigned int` (`uint32ofInt`). The observable effect is the single
`usleep` call with that duration. -/
def swifthal_ms_sleep (ms : Int) : OSCall :=
  OSCall.usleep (uint32ofInt (int32wrap (ms * 1000)))

/-- `void swifthal_us_wait(unsigned int us) { usleep(us); }`
`us` is already a `useconds_t` value (a natural number below `2^32` at
any actual call site); it is passed to `usleep` unchanged. -/
def swifthal_us_wait (us : Nat) : OSCall :=
  OSCall.usleep us

/-- Result of the `sysinfo(&info)` call as seen by
`swifthal_uptime_get`: either success with the `info.uptime` field (a C
`long`, seconds since boot), or failure with the `errno` value set by the
OS. -/
inductive SysinfoRes where
  | ok (uptime : Int) : SysinfoRes
  | err (errno : Int) : SysinfoRes

/-- `long long swifthal_uptime_get(void)`:
if `sysinfo(&info) < 0` it returns `-errno`; otherwise it returns
`info.uptime * 1000`, computed in 64-bit signed arithmetic
(`int64wrap`). The function is total: every outcome of the `sysinfo`
call produces an integer return value, never an exception. -/
def swifthal_uptime_get : SysinfoRes → Int
  | SysinfoRes.ok uptime => int64wrap (uptime * 1000)
  | SysinfoRes.err errno => -errno

/-- `unsigned int swifthal_hwcycle_get(void)`, `__x86_64__` branch:
`rdtsc` leaves the low 32 bits of the 64-bit timestamp counter in `eax`
(`a`) and the high 32 bits in `edx` (`d`); the function computes
`((unsigned long)a) | (((unsigned long)d) << 32)` — a 64-bit value —
and returns it through the `unsigned int` return type, which converts it
modulo `2^32`. `counter` is the full hardware counter value supplied by
the CPU. -/
def swifthal_hwcycle_get (counter : Nat) : Nat :=
  let a : Nat := counter % 2 ^ 32
  let d : Nat := counter / 2 ^ 32 % 2 ^ 32
  let val : Nat := a ||| (d <<< 32)
  val % 2 ^ 32

/-- `unsigned int swifthal_hwcycle_to_ns(unsigned int cycles) { return
sysconf(_SC_CLK_TCK); }` — `clk_tck` is the `long` value returned by
`sysconf(_SC_CLK_TCK)`; it is converted to the `unsigned int` return
type. The `cycles` parameter is not used by the body. -/
def swifthal_hwcycle_to_ns (clk_tck : Int) (cycles : Nat) : Nat :=
  uint32ofInt clk_tck

/-- Outcome of the single `getrandom(buf, length, 0)` call, chosen by the
OS: success with the number of bytes actually written and their values
(indexed from the start of the buffer), or failure (return `-1` with
`errno` set), in which case the buffer is untouched. -/
inductive GetrandomResult where
  | ok (filled : Nat) (bytes : Nat → Nat) : GetrandomResult
  | err (errno : Int) : GetrandomResult

/-- Well-formedness of an OS outcome for a `getrandom` request of `len`
bytes: the OS never reports more bytes written than were requested. -/
def GetrandomResult.valid : GetrandomResult → Int → Prop
  | GetrandomResult.ok filled _, len => (filled : Int) ≤ len
  | GetrandomResult.err _, _ => True

/-- `void swiftHal_randomGet(unsigned char *buf, int length) {
getrandom(buf, length, 0); }`
One execution against OS outcome `r` and initial byte memory `mem`
(address → byte): the trace of OS calls made, the resulting memory, and
the (void) return value. The `getrandom` return value is discarded, so
the trace, memory update rule and return value are produced exactly as
the C does: one call, bytes `buf .. buf+filled-1` overwritten on
success, nothing else. -/
def swiftHal_randomGet (buf : Nat) (len : Int) (r : GetrandomResult)
    (mem : Nat → Nat) : List OSCall × (Nat → Nat) × Unit :=
  ([OSCall.getrandom buf len 0],
   match r with
   | GetrandomResult.ok filled bytes =>
       fun addr => if buf ≤ addr ∧ addr < buf + filled then bytes (addr - buf) else mem addr
   | GetrandomResult.err _ => mem,
   ())

/-- Caller-visible memory effect of `swifthal_ms_sleep`: the function
writes no caller-visible memory (its only action is the `usleep` call),
so memory is returned unchanged. -/
def swifthal_ms_sleep_mem (mem : Nat → Nat) : Nat → Nat := mem

/-- Caller-visible memory effect of `swifthal_us_wait`: no caller-visible
memory is written. -/
def swifthal_us_wait_mem (mem : Nat → Nat) : Nat → Nat := mem

/-- Caller-visible memory effect of `swifthal_uptime_get`: `sysinfo`
writes only the function-local `struct sysinfo info`, which is dead when
the function returns, so caller-visible memory is unchanged. -/
def swifthal_uptime_get_mem (mem : Nat → Nat) : Nat → Nat := mem

/-- Caller-visible memory effect of `swifthal_hwcycle_get`: the counter
read writes only registers, so caller-visible memory is unchanged. -/
def swifthal_hwcycle_get_mem (mem : Nat → Nat) : Nat → Nat := mem

/-- Caller-visible memory effect of `swifthal_hwcycle_to_ns`: `sysconf`
writes no caller-visible memory. -/
def swifthal_hwcycle_to_ns_mem (mem : Nat → Nat) : Nat → Nat := mem

/- Helper lemma: converting the wrapped 32-bit signed product to
`unsigned int` gives the same value as converting the unwrapped product,
because both conversions reduce modulo `2^32`. -/
theorem uint32ofInt_int32wrap (x : Int) : uint32ofInt (int32wrap x) = uint32ofInt x := by
  unfold uint32ofInt int32wrap
  omega

/-- Claim C6: for every non-negative `ms`, calling `swifthal_ms_sleep ms`
has the same effect as calling `swifthal_us_wait (ms * 1000)` (the
argument `ms * 1000` being converted to the `unsigned int` parameter
type at the call, as C does): both reduce to the same `usleep` call with
the same duration. -/
theorem swifthal_ms_sleep_eq_us_wait (ms : Int) (h : 0 ≤ ms) :
    swifthal_ms_sleep ms = swifthal_us_wait (uint32ofInt (ms * 1000)) := by
  unfold swifthal_ms_sleep swifthal_us_wait
  rw [uint32ofInt_int32wrap]

/-- Witness for C6 at `ms = 3`. -/
theorem swifthal_ms_sleep_eq_us_wait_witness :
    swifthal_ms_sleep 3 = swifthal_us_wait (uint32ofInt (3 * 1000)) :=
  swifthal_ms_sleep_eq_us_wait 3 (by decide)

/-- Claim C3 (amended): for every non-negative `ms` with
`ms * 1000 < 2^32`, the microsecond duration `swifthal_ms_sleep`
requests from `usleep` equals `ms * 1000`. (As originally stated, for
every non-negative `ms`, the claim is false: see the counterexample at
`ms = 4294968`.) -/
theorem swifthal_ms_sleep_requests_us (ms : Int) (h0 : 0 ≤ ms)
    (hb : ms * 1000 < 2 ^ 32) :
    swifthal_ms_sleep ms = OSCall.usleep (ms * 1000).toNat := by
  unfold swifthal_ms_sleep
  have harg : uint32ofInt (int32wrap (ms * 1000)) = (ms * 1000).toNat := by
    unfold uint32ofInt int32wrap
    omega
  rw [harg]

/-- Witness for the amended C3 at `ms = 5`. -/
theorem swifthal_ms_sleep_requests_us_witness :
    swifthal_ms_sleep 5 = OSCall.usleep ((5 : Int) * 1000).toNat :=
  swifthal_ms_sleep_requests_us 5 (by decide) (by decide)

/-- Counterexample to claim C3 as stated: at the non-negative input
`ms = 4294968`, the duration requested from `usleep` is
`4294968000 mod 2^32 = 704`, not `ms * 1000`. -/
theorem swifthal_ms_sleep_requests_us_cex :
    swifthal_ms_sleep 4294968 ≠ OSCall.usleep ((4294968 : Int) * 1000).toNat := by
  decide

/-- Claim C10 (amended): for every `ms > INT_MAX / 1000 = 2147483` the
product `ms * 1000` overflows the 32-bit signed `int` (the wrapped value
differs from the mathematical product), and under wraparound semantics
the duration requested from `usleep` equals `(ms * 1000) mod 2^32`;
that requested duration differs from `ms * 1000` itself exactly when
`ms` exceeds `UINT_MAX / 1000 = 4294967` — for
`2147483 < ms ≤ 4294967` the conversion to `useconds_t` restores the
full product, so the sleep is still `ms` milliseconds (see the
counterexample at `ms = 2147484` to the original claim). -/
theorem swifthal_ms_sleep_wraparound (ms : Int) (h : 2147483 < ms) :
    int32wrap (ms * 1000) ≠ ms * 1000 ∧
    swifthal_ms_sleep ms = OSCall.usleep ((ms * 1000) % 2 ^ 32).toNat ∧
    (4294967 < ms → ((ms * 1000) % 2 ^ 32).toNat ≠ (ms * 1000).toNat) := by
  have hlow : 2147484000 ≤ ms * 1000 := by omega
  have hhigh : 4294967 < ms → 4294968000 ≤ ms * 1000 := by omega
  unfold swifthal_ms_sleep
  generalize ms * 1000 = x at hlow hhigh ⊢
  refine ⟨?_, ?_, ?_⟩
  · unfold int32wrap
    omega
  · exact congrArg OSCall.usleep (uint32ofInt_int32wrap x)
  · intro h4
    have hx := hhigh h4
    omega

/-- Witness for the amended C10 at `ms = 4294968`, with the inner
implication discharged as well. -/
theorem swifthal_ms_sleep_wraparound_witness :
    int32wrap ((4294968 : Int) * 1000) ≠ (4294968 : Int) * 1000 ∧
    swifthal_ms_sleep 4294968 = OSCall.usleep (((4294968 : Int) * 1000) % 2 ^ 32).toNat ∧
    (((4294968 : Int) * 1000) % 2 ^ 32).toNat ≠ ((4294968 : Int) * 1000).toNat :=
  ⟨(swifthal_ms_sleep_wraparound 4294968 (by decide)).1,
   (swifthal_ms_sleep_wraparound 4294968 (by decide)).2.1,
   (swifthal_ms_sleep_wraparound 4294968 (by decide)).2.2 (by decide)⟩

/-- Counterexample to claim C10 as stated: at `ms = 2147484`, which
exceeds `INT_MAX / 1000 = 2147483`, the duration requested from `usleep`
IS exactly `1000 * ms` (the signed wraparound is undone by the
conversion to `useconds_t`), contradicting the claim that the requested
duration is not `1000` times `ms` for every such input. -/
theorem swifthal_ms_sleep_wraparound_cex :
    (2147483 : Int) < 2147484 ∧
    swifthal_ms_sleep 2147484 = OSCall.usleep ((2147484 : Int) * 1000).toNat := by
  constructor
  · decide
  · decide

/- Helper lemma for the truncation in `swifthal_hwcycle_get`: or-ing a
value below `2^32` with a left-shift by 32 leaves the low 32 bits
unchanged, so reduction modulo `2^32` recovers the low word. -/
theorem lor_shiftLeft_mod32 (x y : Nat) (hx : x < 2 ^ 32) :
    (x ||| y <<< 32) % 2 ^ 32 = x := by
  apply Nat.eq_of_testBit_eq
  intro i
  rw [Nat.testBit_mod_two_pow, Nat.testBit_or, Nat.testBit_shiftLeft]
  by_cases hi : i < 32
  · have hge : ¬i ≥ 32 := by omega
    simp [hi, hge]
  · have hxi : x.testBit i = false := by
      apply Nat.testBit_lt_two_pow
      calc x < 2 ^ 32 := hx
        _ ≤ 2 ^ i := Nat.pow_le_pow_right (by omega) (by omega)
    simp [hi, hxi]

/-- Claim C4 (amended): the value returned by `swifthal_hwcycle_get` is
the full hardware counter value modulo `2^32`, not modulo `2^64`: the
`unsigned int` return type truncates the 64-bit counter to its low 32
bits. (The original claim — truncation modulo `2^64`, no narrower
truncation — is refuted by the counterexample at `counter = 2^32`.) -/
theorem swifthal_hwcycle_get_mod32 (counter : Nat) :
    swifthal_hwcycle_get counter = counter % 2 ^ 32 := by
  show (counter % 2 ^ 32 ||| (counter / 2 ^ 32 % 2 ^ 32) <<< 32) % 2 ^ 32 = counter % 2 ^ 32
  exact lor_shiftLeft_mod32 _ _ (Nat.mod_lt _ (by omega))

/-- Counterexample to claim C4 as stated: at the counter value `2^32`
(which a 64-bit hardware counter reaches), the function returns `0`,
not `2^32 mod 2^64 = 2^32`. -/
theorem swifthal_hwcycle_get_mod32_cex :
    swifthal_hwcycle_get (2 ^ 32) ≠ 2 ^ 32 % 2 ^ 64 := by
  decide

/-- Claim C1: `swifthal_hwcycle_to_ns` ignores its `cycles` input and
returns the OS clock-ticks-per-second value `sysconf(_SC_CLK_TCK)`
(any actual `_SC_CLK_TCK` value is non-negative and far below `2^32`,
so the conversion to the `unsigned int` return type is the identity);
in particular the result is the same for all inputs. -/
theorem swifthal_hwcycle_to_ns_ignores_cycles (clk_tck : Int) (cycles cycles' : Nat)
    (h0 : 0 ≤ clk_tck) (h1 : clk_tck < 2 ^ 32) :
    swifthal_hwcycle_to_ns clk_tck cycles = clk_tck.toNat ∧
    swifthal_hwcycle_to_ns clk_tck cycles = swifthal_hwcycle_to_ns clk_tck cycles' := by
  constructor
  · show uint32ofInt clk_tck = clk_tck.toNat
    unfold uint32ofInt
    omega
  · rfl

/-- Witness for C1 at `clk_tck = 100` (the usual Linux value) and the
inputs `7` and `99`. -/
theorem swifthal_hwcycle_to_ns_ignores_cycles_witness :
    swifthal_hwcycle_to_ns 100 7 = (100 : Int).toNat ∧
    swifthal_hwcycle_to_ns 100 7 = swifthal_hwcycle_to_ns 100 99 :=
  swifthal_hwcycle_to_ns_ignores_cycles 100 7 99 (by decide) (by decide)

/-- Claim C2: when the `sysinfo` call succeeds with a (realistic)
non-negative uptime reading whose millisecond scaling fits a 64-bit
`long long`, `swifthal_uptime_get` returns the uptime in seconds
multiplied by `1000`, a non-negative value; when `sysinfo` fails with a
(positive) `errno`, it returns the negated error code, a negative
value — so a negative return occurs exactly on failure. The embedded
function is total: every `sysinfo` outcome yields an integer return,
never an exception. -/
theorem swifthal_uptime_get_spec (u e : Int) (hu : 0 ≤ u)
    (hub : u * 1000 < 2 ^ 63) (he : 0 < e) :
    swifthal_uptime_get (SysinfoRes.ok u) = u * 1000 ∧
    0 ≤ swifthal_uptime_get (SysinfoRes.ok u) ∧
    swifthal_uptime_get (SysinfoRes.err e) = -e ∧
    swifthal_uptime_get (SysinfoRes.err e) < 0 := by
  have hm : 0 ≤ u * 1000 := by omega
  have hok : swifthal_uptime_get (SysinfoRes.ok u) = u * 1000 := by
    show int64wrap (u * 1000) = u * 1000
    generalize u * 1000 = x at hm hub ⊢
    unfold int64wrap
    omega
  refine ⟨hok, ?_, rfl, ?_⟩
  · rw [hok]
    exact hm
  · show -e < 0
    omega

/-- Witness for C2 at uptime `42` seconds and `errno = 5` (`EIO`). -/
theorem swifthal_uptime_get_spec_witness :
    swifthal_uptime_get (SysinfoRes.ok 42) = 42 * 1000 ∧
    0 ≤ swifthal_uptime_get (SysinfoRes.ok 42) ∧
    swifthal_uptime_get (SysinfoRes.err 5) = -5 ∧
    swifthal_uptime_get (SysinfoRes.err 5) < 0 :=
  swifthal_uptime_get_spec 42 5 (by decide) (by decide) (by decide)

/-- Claim C7: on a healthy system — both `sysinfo` calls succeed, the
uptime readings are non-negative, within range, and non-decreasing —
`swifthal_uptime_get` returns a non-negative value, and the value of
the second of two successive calls is at least the value of the
first. -/
theorem swifthal_uptime_get_monotone (u1 u2 : Int) (h0 : 0 ≤ u1)
    (h12 : u1 ≤ u2) (hb : u2 * 1000 < 2 ^ 63) :
    0 ≤ swifthal_uptime_get (SysinfoRes.ok u1) ∧
    swifthal_uptime_get (SysinfoRes.ok u1) ≤ swifthal_uptime_get (SysinfoRes.ok u2) := by
  have ha : 0 ≤ u1 * 1000 := by omega
  have hab : u1 * 1000 ≤ u2 * 1000 := by omega
  show 0 ≤ int64wrap (u1 * 1000) ∧ int64wrap (u1 * 1000) ≤ int64wrap (u2 * 1000)
  generalize u1 * 1000 = x at ha hab ⊢
  generalize u2 * 1000 = y at hab hb ⊢
  unfold int64wrap
  omega

/-- Witness for C7 at successive uptime readings `42` and `43`. -/
theorem swifthal_uptime_get_monotone_witness :
    0 ≤ swifthal_uptime_get (SysinfoRes.ok 42) ∧
    swifthal_uptime_get (SysinfoRes.ok 42) ≤ swifthal_uptime_get (SysinfoRes.ok 43) :=
  swifthal_uptime_get_monotone 42 43 (by decide) (by decide) (by decide)

/-- Claim C9: whenever `swifthal_uptime_get` succeeds (the `sysinfo`
call succeeds with a realistic in-range uptime), the returned
millisecond count is non-negative and an exact multiple of `1000`: the
result carries only whole-second granularity. -/
theorem swifthal_uptime_get_granularity (u : Int) (h0 : 0 ≤ u)
    (hb : u * 1000 < 2 ^ 63) :
    0 ≤ swifthal_uptime_get (SysinfoRes.ok u) ∧
    (1000 : Int) ∣ swifthal_uptime_get (SysinfoRes.ok u) := by
  have hm : 0 ≤ u * 1000 := by omega
  have hok : swifthal_uptime_get (SysinfoRes.ok u) = u * 1000 := by
    show int64wrap (u * 1000) = u * 1000
    generalize u * 1000 = x at hm hb ⊢
    unfold int64wrap
    omega
  rw [hok]
  exact ⟨hm, u, mul_comm u 1000⟩

/-- Witness for C9 at uptime `42` seconds. -/
theorem swifthal_uptime_get_granularity_witness :
    0 ≤ swifthal_uptime_get (SysinfoRes.ok 42) ∧
    (1000 : Int) ∣ swifthal_uptime_get (SysinfoRes.ok 42) :=
  swifthal_uptime_get_granularity 42 (by decide) (by decide)

/-- Claim C5: for every buffer, length, OS outcome and initial memory,
`swiftHal_randomGet` makes exactly one OS call — the single
`getrandom(buf, length, 0)` call, no retry loop — and returns the C
`void` value; moreover the trace and the return value are independent
of the OS outcome `r`, so a failed or partially filled call produces no
error indication whatsoever. -/
theorem swiftHal_randomGet_single_call (buf : Nat) (len : Int)
    (r r' : GetrandomResult) (mem mem' : Nat → Nat) :
    (swiftHal_randomGet buf len r mem).1 = [OSCall.getrandom buf len 0] ∧
    (swiftHal_randomGet buf len r mem).1.length = 1 ∧
    (swiftHal_randomGet buf len r mem).2.2 = () ∧
    (swiftHal_randomGet buf len r mem).1 = (swiftHal_randomGet buf len r' mem').1 ∧
    (swiftHal_randomGet buf len r mem).2.2 = (swiftHal_randomGet buf len r' mem').2.2 :=
  ⟨rfl, rfl, rfl, rfl, rfl⟩

/-- Claim C8: under a well-formed OS outcome (`getrandom` never reports
more bytes written than requested), `swiftHal_randomGet` leaves every
memory address outside `buf .. buf+length-1` unchanged, and the other
operations of the shim change no caller-visible memory at all. -/
theorem swiftHal_randomGet_frame (buf : Nat) (len : Int) (r : GetrandomResult)
    (mem : Nat → Nat) (addr : Nat)
    (hv : r.valid len)
    (hout : addr < buf ∨ (buf : Int) + len ≤ (addr : Int)) :
    (swiftHal_randomGet buf len r mem).2.1 addr = mem addr ∧
    swifthal_ms_sleep_mem mem addr = mem addr ∧
    swifthal_us_wait_mem mem addr = mem addr ∧
    swifthal_uptime_get_mem mem addr = mem addr ∧
    swifthal_hwcycle_get_mem mem addr = mem addr ∧
    swifthal_hwcycle_to_ns_mem mem addr = mem addr := by
  refine ⟨?_, rfl, rfl, rfl, rfl, rfl⟩
  cases r with
  | ok filled bytes =>
      have hv' : (filled : Int) ≤ len := hv
      show (if buf ≤ addr ∧ addr < buf + filled then bytes (addr - buf) else mem addr) = mem addr
      have hnot : ¬(buf ≤ addr ∧ addr < buf + filled) := by omega
      rw [if_neg hnot]
  | err e => rfl

/-- Witness for C8: a 4-byte request at buffer address `100` with the OS
writing 2 bytes leaves address `104` (outside the buffer) unchanged,
and the other operations leave it unchanged as well. -/
theorem swiftHal_randomGet_frame_witness :
    (swiftHal_randomGet 100 4 (GetrandomResult.ok 2 (fun _ => 7)) (fun _ => 0)).2.1 104 = 0 ∧
    swifthal_ms_sleep_mem (fun _ => 0) 104 = 0 ∧
    swifthal_us_wait_mem (fun _ => 0) 104 = 0 ∧
    swifthal_uptime_get_mem (fun _ => 0) 104 = 0 ∧
    swifthal_hwcycle_get_mem (fun _ => 0) 104 = 0 ∧
    swifthal_hwcycle_to_ns_mem (fun _ => 0) 104 = 0 :=
  swiftHal_randomGet_frame 100 4 (GetrandomResult.ok 2 (fun _ => 7)) (fun _ => 0) 104
    (show ((2 : Nat) : Int) ≤ 4 by decide) (Or.inr (by decide))
